import Mathlib

/- Shallow embedding of pulp_rpm plugins/importers/yum/upload.py and proofs
   about its upload pipeline: dispatch, report building, RPM data extraction,
   user-override merging, snippet parsing and errata linking. -/

namespace PulpRpm

/-- One parsed provides/requires entry.
Modelled from the spec: CapabilityEntry is the (name, flag/operator, version)
record produced by primary._process_rpm_entry_element, a module outside src. -/
structure CapabilityEntry where
  capName : Option String
  capFlags : Option String
  capVer : Option String
deriving DecidableEq, Repr

/-- A Python value stored in a unit-key or metadata dict.  Strings and ints
cover the header-derived fields; caps covers the provides/requires lists the
package handler writes after parsing the snippet; repodataVal covers the
repodata snippet mapping attached to the unit (tracked by its primary text,
a list of Unicode code points). -/
inductive PyVal where
  | str (s : String)
  | int (i : Int)
  | caps (cs : List CapabilityEntry)
  | repodataVal (primaryText : List Nat)
deriving DecidableEq, Repr

/-- An RPM header epoch value as read from the header: a number or a string
(the code stringifies either with str()). -/
inductive HeaderEpoch where
  | int (i : Int)
  | str (s : String)
deriving DecidableEq, Repr

/-- Python str() applied to a header epoch value. -/
def pyStrEpoch : HeaderEpoch → String
  | .int i => toString i
  | .str s => s

/-- A Python dict with string keys, as an association list (first match wins
for lookup; dUpdate keeps that discipline). -/
abbrev Dict : Type := List (String × PyVal)

/-- Python d[k] / d.get(k) on our dict model. -/
def dLookup (d : Dict) (k : String) : Option PyVal :=
  (d.find? (fun p => p.1 == k)).map (·.2)

/-- Python d.update(u): every key of u takes the value from u, keys only in
d keep the value from d. -/
def dUpdate (d u : Dict) : Dict :=
  u ++ d.filter (fun p => (dLookup u p.1).isNone)

theorem dLookup_nil (k : String) : dLookup [] k = none := rfl

/-- Filtering with a test that keeps every entry whose key is k does not
change the first entry found for key k. -/
theorem find?_key_filter (d : List (String × PyVal)) (k : String)
    (q : String × PyVal → Bool) (hq : ∀ p : String × PyVal, p.1 = k → q p = true) :
    (d.filter q).find? (fun p => p.1 == k) = d.find? (fun p => p.1 == k) := by
  induction d with
  | nil => rfl
  | cons a d ih =>
    by_cases hak : a.1 = k
    · rw [List.filter_cons_of_pos (hq a hak)]
      rw [List.find?_cons, List.find?_cons]
      simp [hak]
    · cases hqa : q a with
      | true =>
        rw [List.filter_cons_of_pos hqa, List.find?_cons, List.find?_cons]
        simp only [show (a.1 == k) = false by simp [hak]]
        exact ih
      | false =>
        rw [List.filter_cons_of_neg (by simp [hqa]), List.find?_cons]
        simp only [show (a.1 == k) = false by simp [hak]]
        exact ih

theorem dLookup_dUpdate (d u : Dict) (k : String) :
    dLookup (dUpdate d u) k =
      match dLookup u k with
      | some v => some v
      | none => dLookup d k := by
  unfold dUpdate dLookup
  rw [List.find?_append]
  cases hu : List.find? (fun p => p.1 == k) u with
  | some p => simp [Option.or]
  | none =>
    simp only [Option.or, Option.map_none']
    have hnone : Option.map (fun x => x.2) (List.find? (fun p => p.1 == k) u) = none := by
      rw [hu]
      rfl
    rw [find?_key_filter]
    intro p hp
    simp only [dLookup, hp, hu, Option.map_none', Option.isNone_none]

/-- dUpdate takes the user value whenever the user supplies the field. -/
theorem dLookup_dUpdate_of_mem (d u : Dict) (k : String)
    (h : (dLookup u k).isSome) : dLookup (dUpdate d u) k = dLookup u k := by
  rw [dLookup_dUpdate]
  cases hu : dLookup u k with
  | some v => rfl
  | none => rw [hu] at h; simp at h

/-- dUpdate keeps the extracted value whenever the user does not supply the
field. -/
theorem dLookup_dUpdate_of_not_mem (d u : Dict) (k : String)
    (h : dLookup u k = none) : dLookup (dUpdate d u) k = dLookup d k := by
  rw [dLookup_dUpdate, h]

/- ---------------------------------------------------------------------------
XML element model used by _update_provides_requires.  The wrapped snippet is
parsed by ET.fromstring and utils.strip_ns (both outside this module); the
element tree they deliver is the input here, with namespace markers already
stripped. -/

/-- One parsed XML element: tag, attributes and child elements in document
order. -/
inductive XmlElement where
  | node (tag : String) (attrs : List (String × String)) (children : List XmlElement)
deriving Repr

/-- Tag of an element. -/
def XmlElement.tag : XmlElement → String
  | .node t _ _ => t

/-- Attributes of an element. -/
def XmlElement.attrs : XmlElement → List (String × String)
  | .node _ a _ => a

/-- Child elements of an element. -/
def XmlElement.children : XmlElement → List XmlElement
  | .node _ _ c => c

/-- ElementTree Element.find: first direct child with the given tag, or
None. -/
def xfind (e : XmlElement) (t : String) : Option XmlElement :=
  e.children.find? (fun c => c.tag == t)

/-- ElementTree Element.findall: all direct children with the given tag, in
document order. -/
def xfindall (e : XmlElement) (t : String) : List XmlElement :=
  e.children.filter (fun c => c.tag == t)

/-- ElementTree Element.get: attribute lookup. -/
def xattr (e : XmlElement) (a : String) : Option String :=
  (e.attrs.find? (fun p => p.1 == a)).map (·.2)

/-- Modelled from the spec: primary._process_rpm_entry_element (module
pulp_rpm.plugins.importers.yum.repomd.primary, not in src) parses one entry
element into a CapabilityEntry carrying its name, flag/operator and
version. -/
def processRpmEntryElement (e : XmlElement) : CapabilityEntry :=
  { capName := xattr e "name", capFlags := xattr e "flags", capVer := xattr e "ver" }

/-- The conditional list build in _update_provides_requires:
map(primary._process_rpm_entry_element, elem.findall(entry)) if elem else [].
A missing element (None) is falsy; an element with no children is also falsy
in ElementTree, and then findall would deliver the empty list anyway. -/
def capList (oe : Option XmlElement) : List CapabilityEntry :=
  match oe with
  | none => []
  | some e =>
    if e.children.length ≠ 0 then (xfindall e "entry").map processRpmEntryElement
    else []

/- ---------------------------------------------------------------------------
Encoding determination.  Snippet text is a list of Unicode code points; a
codec encodes it when every code point is representable: UTF-8 represents
every Unicode scalar value, ISO-8859-1 the code points up to 255. -/

/-- The two codecs tried by _update_provides_requires. -/
inductive Codec where
  | utf8
  | iso88591
deriving DecidableEq, Repr

/-- A Unicode scalar value: in range and not a surrogate. -/
def isUnicodeScalar (cp : Nat) : Bool :=
  decide (cp ≤ 0x10FFFF) && !(decide (0xD800 ≤ cp) && decide (cp ≤ 0xDFFF))

/-- Representable in ISO-8859-1. -/
def latin1Encodable (cp : Nat) : Bool :=
  decide (cp ≤ 255)

/-- text.encode(codec): the encoded bytes when every code point is
representable under the codec, failure (UnicodeEncodeError) otherwise.  The
byte expansion itself is irrelevant here, so the encoded form is tracked as
the code points. -/
def pyEncode (c : Codec) (text : List Nat) : Option (List Nat) :=
  match c with
  | .utf8 => if text.all isUnicodeScalar then some text else none
  | .iso88591 => if text.all latin1Encodable then some text else none

/-- The encoding guess of _update_provides_requires: try UTF-8 inside the
try block; on UnicodeEncodeError fall back to ISO-8859-1, whose encode runs
outside any handler, so its failure would escape the function. -/
def determineCodec (text : List Nat) : Option Codec :=
  match pyEncode .utf8 text with
  | some _ => some .utf8
  | none =>
    match pyEncode .iso88591 text with
    | some _ => some .iso88591
    | none => none

/-- Failures that can escape _update_provides_requires: an encode failure of
the chosen codec, or an attribute access on None when the package or format
element is missing. -/
inductive SnippetError where
  | unicodeEncodeError
  | attributeError
deriving DecidableEq, Repr

/-- Embedding of _update_provides_requires: determine the codec of the primary snippet
text, then read the provides and requires lists from the parsed wrapped
snippet (root is the synthetic faketag element).  find(package) giving None
makes the following .find attribute access fail, same for format; missing
provides or requires children give empty lists through capList. -/
def updateProvidesRequires (primaryText : List Nat) (root : XmlElement) :
    Except SnippetError (List CapabilityEntry × List CapabilityEntry) :=
  match determineCodec primaryText with
  | none => .error .unicodeEncodeError
  | some _ =>
    match xfind root "package" with
    | none => .error .attributeError
    | some packageElement =>
      match xfind packageElement "format" with
      | none => .error .attributeError
      | some formatElement =>
        .ok (capList (xfind formatElement "provides"),
             capList (xfind formatElement "requires"))

/- ---------------------------------------------------------------------------
_generate_rpm_data: RPM header fields to unit key and metadata. -/

/-- The RPM header fields read by _generate_rpm_data, as delivered by
ts.hdrFromFdno.  sourcepackage is the truthiness of the sourcepackage header
entry; hasNosourceTag states whether tag RPMTAG_NOSOURCE (1051) is among the
header keys. -/
structure RpmHeaders where
  hdrName : String
  hdrVersion : String
  hdrRelease : String
  hdrEpoch : Option HeaderEpoch
  sourcepackage : Bool
  hasNosourceTag : Bool
  hdrArch : String
  hdrBuildhost : String
  hdrLicense : String
  hdrVendor : String
  hdrDescription : String
deriving DecidableEq, Repr

/-- Modelled from the spec: verification.TYPE_SHA256 (pulp.plugins.util
.verification, external collaborator) — the fixed strong checksum type. -/
def TYPE_SHA256 : String := "sha256"

/-- Embedding of _generate_rpm_data, given the parsed headers, the streamed checksum of
the file (hashlib computation is external input here) and the base name of
the staged file.  Returns the unit key dict and the metadata dict with the
insertion order of the source. -/
def generateRpmData (hdrs : RpmHeaders) (checksum : String) (basename : String) :
    Dict × Dict :=
  let unitKey : Dict :=
    [ ("checksumtype", .str TYPE_SHA256),
      ("checksum", .str checksum),
      ("name", .str hdrs.hdrName),
      ("version", .str hdrs.hdrVersion),
      ("release", .str hdrs.hdrRelease),
      ("epoch", .str (match hdrs.hdrEpoch with
        | none => toString (0 : Int)
        | some v => pyStrEpoch v)),
      ("arch", .str (if hdrs.sourcepackage then
          (if hdrs.hasNosourceTag then "nosrc" else "src")
        else hdrs.hdrArch)) ]
  let metadata : Dict :=
    [ ("relativepath", .str basename),
      ("filename", .str basename),
      ("buildhost", .str hdrs.hdrBuildhost),
      ("license", .str hdrs.hdrLicense),
      ("vendor", .str hdrs.hdrVendor),
      ("description", .str hdrs.hdrDescription) ]
  (unitKey, metadata)

/- ---------------------------------------------------------------------------
Dispatcher, handlers and report building. -/

/-- The module exception classes (plus the catch-all arm) that the upload
driver converts into report messages. -/
inductive UploadExn where
  | modelInstantiationError
  | storeFileError
  | packageMetadataError
  | unexpectedError
deriving DecidableEq, Repr

/-- The message chosen by the except arms of upload for each failure
class. -/
def errorMessage : UploadExn → String
  | .modelInstantiationError => "metadata for the uploaded file was invalid"
  | .storeFileError => "file could not be deployed into Pulp\x27s storage"
  | .packageMetadataError => "metadata for the given package could not be extracted"
  | .unexpectedError => "unexpected error occurred importing uploaded file"

/-- Modelled from the spec: pulp.plugins.model.SyncReport (external
collaborator).  The constructor takes the success flag, three numeric unit
counts (the spec reads the first as units processed and the next as units
failed), a summary text and a details mapping; the details mapping is
tracked by its optional errors list (none for the empty mapping). -/
structure SyncReport where
  success : Bool
  added : Nat
  updated : Nat
  removed : Nat
  summary : String
  detailsErrors : Option (List String)
deriving DecidableEq, Repr

/-- Embedding of _fail_report: SyncReport(False, 0, 0, 0, empty summary, one-error
details). -/
def failReport (message : String) : SyncReport :=
  { success := false, added := 0, updated := 0, removed := 0, summary := "",
    detailsErrors := some [message] }

/-- The report built on handler success: SyncReport(True, 1, 0, 0, empty
summary, empty details). -/
def successReport : SyncReport :=
  { success := true, added := 1, updated := 0, removed := 0, summary := "",
    detailsErrors := none }

/-- Modelled from the spec: models.RPM.TYPE and friends (pulp_rpm.common
.models, not in src) — the declared type identifiers of the supported
content types. -/
def rpmTypeId : String := "rpm"

/-- Modelled from the spec: models.SRPM.TYPE, the source-package type
identifier. -/
def srpmTypeId : String := "srpm"

/-- Modelled from the spec: models.PackageGroup.TYPE. -/
def packageGroupTypeId : String := "package_group"

/-- Modelled from the spec: models.PackageCategory.TYPE. -/
def packageCategoryTypeId : String := "package_category"

/-- Modelled from the spec: models.Errata.TYPE, the errata type
identifier. -/
def errataTypeId : String := "erratum"

/-- The keys of the handlers dict in upload. -/
def handledTypes : List String :=
  [rpmTypeId, srpmTypeId, packageGroupTypeId, packageCategoryTypeId, errataTypeId]

/-- Modelled from the spec: the required unit-key field names of each
supported type (the keyword signature of the model constructors in
pulp_rpm.common.models, not in src).  The RPM and SRPM field set matches the
expected unit key fields listed in _generate_rpm_data. -/
def requiredKeyFields (typeId : String) : List String :=
  if typeId == rpmTypeId || typeId == srpmTypeId then
    ["name", "epoch", "version", "release", "arch", "checksumtype", "checksum"]
  else if typeId == errataTypeId then ["id"]
  else if typeId == packageGroupTypeId || typeId == packageCategoryTypeId then
    ["id", "repo_id"]
  else []

/-- model_class(metadata=..., **unit_key): keyword expansion succeeds exactly
when the unit-key dict carries the required fields of the type and nothing
else; any mismatch raises TypeError in the source. -/
def modelInstantiationOk (typeId : String) (key : Dict) : Bool :=
  (requiredKeyFields typeId).all (fun f => (dLookup key f).isSome) &&
    key.all (fun p => (requiredKeyFields typeId).contains p.1)

/-- One conduit.save_unit effect: the type, unit key and metadata of the
persisted unit. -/
structure SavedUnit where
  typeId : String
  key : Dict
  meta : Dict
deriving DecidableEq, Repr

/-- A package unit already in the destination repository, as seen by
conduit.get_units: its type and its unit fields. -/
structure StoredUnit where
  typeId : String
  fields : List (String × String)
deriving DecidableEq, Repr

/-- One conduit.link_unit effect between the uploaded erratum unit and a
package unit. -/
structure Link where
  target : StoredUnit
  bidirectional : Bool
deriving DecidableEq, Repr

/-- Unit field lookup for filter matching. -/
def sLookup (fields : List (String × String)) (k : String) : Option String :=
  (fields.find? (fun p => p.1 == k)).map (·.2)

/-- Modelled from the spec: one search predicate of the errata (an AND of
identity-field equality constraints) matches a stored unit when every listed
field equals the required value. -/
def matchesFilter (f : List (String × String)) (u : StoredUnit) : Bool :=
  f.all (fun kv => sLookup u.fields kv.1 == some kv.2)

/-- Modelled from the spec: the unit_filters mapping or-list over
rpm_search_dicts — a unit matches when any predicate matches. -/
def matchesAnyFilter (fs : List (List (String × String))) (u : StoredUnit) : Bool :=
  fs.any (fun f => matchesFilter f u)

/-- Modelled from the spec: conduit.get_units with a criteria restricted to
one type id and the or-filter — all stored units of that type matching any
predicate. -/
def getUnits (db : List StoredUnit) (typeId : String)
    (fs : List (List (String × String))) : List StoredUnit :=
  db.filter (fun u => u.typeId == typeId && matchesAnyFilter fs u)

/-- External outcomes feeding one package upload: whether ts.hdrFromFdno
parsed the headers (none models any exception inside _generate_rpm_data),
the streamed checksum, the base name of the staged file, whether shutil.move
succeeded, and the repodata snippet delivered by get_package_xml with its
parsed wrapped form. -/
structure PackageEnv where
  headerParse : Option RpmHeaders
  checksum : String
  basename : String
  moveOk : Bool
  repodataPrimary : List Nat
  repodataRoot : XmlElement

/-- External state feeding one erratum upload: the destination repository
units, the skip_erratum_link boolean read from the config, and the search
predicates carried by the errata model (rpm_search_dicts). -/
structure ErratumEnv where
  db : List StoredUnit
  skipLink : Bool
  searchDicts : List (List (String × String))

/-- All external state of one upload invocation. -/
structure World where
  pkg : PackageEnv
  err : ErratumEnv

/-- The merged unit key of _handle_package: extracted key updated with the
user key (unit_key or the empty dict). -/
def mergedKeyOf (hdrs : RpmHeaders) (checksum basename : String)
    (userKey : Option Dict) : Dict :=
  dUpdate (generateRpmData hdrs checksum basename).1 (userKey.getD [])

/-- The merged metadata of _handle_package: extracted metadata updated with
the user metadata (metadata or the empty dict). -/
def mergedMetaOf (hdrs : RpmHeaders) (checksum basename : String)
    (userMeta : Option Dict) : Dict :=
  dUpdate (generateRpmData hdrs checksum basename).2 (userMeta.getD [])

/-- Embedding of _handle_package: extract and merge, validate by model construction, move
the file, derive the repodata and provides/requires metadata entries, save.
The result pairs the handler outcome with the save_unit effects. -/
def handlePackage (typeId : String) (userKey userMeta : Option Dict)
    (env : PackageEnv) : Except UploadExn Unit × List SavedUnit :=
  match env.headerParse with
  | none => (.error .packageMetadataError, [])
  | some hdrs =>
    let k := mergedKeyOf hdrs env.checksum env.basename userKey
    let m := mergedMetaOf hdrs env.checksum env.basename userMeta
    if modelInstantiationOk typeId k then
      if env.moveOk then
        match updateProvidesRequires env.repodataPrimary env.repodataRoot with
        | .error _ => (.error .unexpectedError, [])
        | .ok (provides, requires) =>
          let finalMeta := dUpdate m
            [ ("repodata", .repodataVal env.repodataPrimary),
              ("provides", .caps provides),
              ("requires", .caps requires) ]
          (.ok (), [{ typeId := typeId, key := k, meta := finalMeta }])
      else (.error .storeFileError, [])
    else (.error .modelInstantiationError, [])

/-- Embedding of _handle_group_category: validate by model construction and save; a None
unit_key makes the keyword expansion raise TypeError. -/
def handleGroupCategory (typeId : String) (userKey userMeta : Option Dict) :
    Except UploadExn Unit × List SavedUnit :=
  match userKey with
  | none => (.error .modelInstantiationError, [])
  | some k =>
    if modelInstantiationOk typeId k then
      (.ok (), [{ typeId := typeId, key := k, meta := userMeta.getD [] }])
    else (.error .modelInstantiationError, [])

/-- Embedding of _link_errata_to_rpms: for the RPM type and then the SRPM type, fetch the
units matching the or-filter of the search predicates and link each to the
erratum unit bidirectionally. -/
def linkErrataToRpms (env : ErratumEnv) : List Link :=
  ((getUnits env.db rpmTypeId env.searchDicts) ++
      (getUnits env.db srpmTypeId env.searchDicts)).map
    (fun u => { target := u, bidirectional := true })

/-- Embedding of _handle_erratum: validate by model construction, link to repository
packages unless skip_erratum_link is set, save.  The result carries the
handler outcome, the save_unit effects and the link_unit effects. -/
def handleErratum (typeId : String) (userKey userMeta : Option Dict)
    (env : ErratumEnv) : Except UploadExn Unit × List SavedUnit × List Link :=
  match userKey with
  | none => (.error .modelInstantiationError, [], [])
  | some k =>
    if modelInstantiationOk typeId k then
      (.ok (), [{ typeId := typeId, key := k, meta := userMeta.getD [] }],
        if !env.skipLink then linkErrataToRpms env else [])
    else (.error .modelInstantiationError, [], [])

/-- handlers[type_id](...): dispatch to the handler registered for the type
in the handlers dict of upload. -/
def runHandler (typeId : String) (userKey userMeta : Option Dict) (w : World) :
    Except UploadExn Unit × List SavedUnit × List Link :=
  if typeId == rpmTypeId || typeId == srpmTypeId then
    let r := handlePackage typeId userKey userMeta w.pkg
    (r.1, r.2, [])
  else if typeId == packageGroupTypeId || typeId == packageCategoryTypeId then
    let r := handleGroupCategory typeId userKey userMeta
    (r.1, r.2, [])
  else
    handleErratum typeId userKey userMeta w.err

/-- upload: reject unsupported types without touching a handler, otherwise
run the handler and convert its outcome into the report; classified
exceptions map to their category message, anything else to the catch-all
message.  The result carries the report together with the save and link
effects of the invocation. -/
def upload (typeId : String) (userKey userMeta : Option Dict) (w : World) :
    SyncReport × List SavedUnit × List Link :=
  if handledTypes.contains typeId then
    match runHandler typeId userKey userMeta w with
    | (.ok _, saved, links) => (successReport, saved, links)
    | (.error e, saved, links) => (failReport (errorMessage e), saved, links)
  else
    (failReport (typeId ++ " is not a supported type for upload"), [], [])

/- ---------------------------------------------------------------------------
Concrete inputs used to evaluate the model at specific points. -/

/-- A well-formed binary package header. -/
def exHeaders : RpmHeaders :=
  { hdrName := "pulp-test-package", hdrVersion := "0.3.1", hdrRelease := "1",
    hdrEpoch := some (.int 2), sourcepackage := false, hasNosourceTag := false,
    hdrArch := "x86_64", hdrBuildhost := "smqe-ws15", hdrLicense := "GPLv2",
    hdrVendor := "Red Hat", hdrDescription := "Test package" }

/-- A parsed wrapped snippet whose package/format element has neither a
provides nor a requires child. -/
def exRoot : XmlElement :=
  .node "faketag" [] [.node "package" [] [.node "format" [] []]]

/-- A package upload whose staged-file move fails. -/
def exWorldMoveFail : World :=
  { pkg := { headerParse := some exHeaders, checksum := "abc123",
             basename := "pulp-test.rpm", moveOk := false,
             repodataPrimary := [60, 112, 233], repodataRoot := exRoot },
    err := { db := [], skipLink := false, searchDicts := [] } }

/-- A package upload in which every external step succeeds. -/
def exWorldMoveOk : World :=
  { pkg := { headerParse := some exHeaders, checksum := "abc123",
             basename := "pulp-test.rpm", moveOk := true,
             repodataPrimary := [60, 112, 233], repodataRoot := exRoot },
    err := { db := [], skipLink := false, searchDicts := [] } }

/-- A user-supplied provides entry. -/
def exCap : CapabilityEntry :=
  { capName := some "userlib", capFlags := none, capVer := none }

/-- User metadata supplying its own provides list. -/
def exUserMeta : Dict := [("provides", .caps [exCap])]

/-- A complete errata unit key. -/
def exErrataKey : Dict := [("id", .str "RHEA-2012:0003")]

/-- A repository RPM matching the search predicate. -/
def exMatchingUnit : StoredUnit :=
  { typeId := "rpm", fields := [("name", "pulp-test-package"), ("version", "0.3.1")] }

/-- A repository RPM matching no search predicate. -/
def exOtherUnit : StoredUnit :=
  { typeId := "rpm", fields := [("name", "other-package")] }

/-- An errata upload against a repository holding one matching and one
non-matching RPM, with linking enabled. -/
def exErrWorld : World :=
  { pkg := { headerParse := none, checksum := "", basename := "", moveOk := false,
             repodataPrimary := [], repodataRoot := exRoot },
    err := { db := [exMatchingUnit, exOtherUnit], skipLink := false,
             searchDicts := [[("name", "pulp-test-package")]] } }

/-- The same errata upload with skip_erratum_link set. -/
def exErrWorldSkip : World :=
  { pkg := { headerParse := none, checksum := "", basename := "", moveOk := false,
             repodataPrimary := [], repodataRoot := exRoot },
    err := { db := [exMatchingUnit, exOtherUnit], skipLink := true,
             searchDicts := [[("name", "pulp-test-package")]] } }

/- ---------------------------------------------------------------------------
Claim theorems. -/

/-- C2: a package declaring no epoch gets the string epoch value 0; a
package declaring an epoch gets the stringified declared value; the field is
a string either way. -/
theorem claim_c2_epoch (hdrs : RpmHeaders) (checksum basename : String) :
    (hdrs.hdrEpoch = none →
      dLookup (generateRpmData hdrs checksum basename).1 "epoch" =
        some (.str "0")) ∧
    (∀ v, hdrs.hdrEpoch = some v →
      dLookup (generateRpmData hdrs checksum basename).1 "epoch" =
        some (.str (pyStrEpoch v))) := by
  constructor
  · intro h
    simp [generateRpmData, dLookup, h, List.find?]
    rfl
  · intro v h
    simp [generateRpmData, dLookup, h, List.find?]

/-- Witness for C2 at a header declaring epoch 2. -/
theorem claim_c2_epoch_witness :
    dLookup (generateRpmData exHeaders "abc123" "pulp-test.rpm").1 "epoch" =
      some (.str "2") :=
  (claim_c2_epoch exHeaders "abc123" "pulp-test.rpm").2 (.int 2) rfl

/-- C3: the extracted architecture is nosrc for a source package bearing the
no-binary-source marker tag, src for a source package without it, and the
declared header architecture otherwise. -/
theorem claim_c3_arch (hdrs : RpmHeaders) (checksum basename : String) :
    (hdrs.sourcepackage = true → hdrs.hasNosourceTag = true →
      dLookup (generateRpmData hdrs checksum basename).1 "arch" =
        some (.str "nosrc")) ∧
    (hdrs.sourcepackage = true → hdrs.hasNosourceTag = false →
      dLookup (generateRpmData hdrs checksum basename).1 "arch" =
        some (.str "src")) ∧
    (hdrs.sourcepackage = false →
      dLookup (generateRpmData hdrs checksum basename).1 "arch" =
        some (.str hdrs.hdrArch)) := by
  refine ⟨?_, ?_, ?_⟩ <;> intro h <;>
    first
      | (intro h2; simp [generateRpmData, dLookup, h, h2, List.find?])
      | simp [generateRpmData, dLookup, h, List.find?]

/-- Witness for C3 at a non-source package with architecture x86_64. -/
theorem claim_c3_arch_witness :
    dLookup (generateRpmData exHeaders "abc123" "pulp-test.rpm").1 "arch" =
      some (.str "x86_64") :=
  (claim_c3_arch exHeaders "abc123" "pulp-test.rpm").2.2 rfl

/-- C4: an undeclared type is rejected before any handler runs — for every
external state the result is the failure report whose single error is the
type name followed by the unsupported-type text, and no unit is saved and no
link is made. -/
theorem claim_c4_unsupported (typeId : String) (userKey userMeta : Option Dict)
    (w : World) (h : handledTypes.contains typeId = false) :
    upload typeId userKey userMeta w =
      ({ success := false, added := 0, updated := 0, removed := 0, summary := "",
         detailsErrors := some [typeId ++ " is not a supported type for upload"] },
        [], []) := by
  have hm : typeId ∉ handledTypes := by simpa using h
  simp [upload, hm, failReport]

/-- Witness for C4 at declared type widget. -/
theorem claim_c4_unsupported_witness :
    upload "widget" none none exWorldMoveFail =
      ({ success := false, added := 0, updated := 0, removed := 0, summary := "",
         detailsErrors := some ["widget is not a supported type for upload"] },
        [], []) :=
  claim_c4_unsupported "widget" none none exWorldMoveFail (by decide)

/-- C1 counterexample: at a storage failure the single error message of the
report is the storage text of the source, which carries the word Pulp and is
not the category string quoted by the claim. -/
theorem claim_c1_counterexample :
    (upload rpmTypeId (some []) none exWorldMoveFail).1.detailsErrors =
      some ["file could not be deployed into Pulp\x27s storage"] ∧
    ("file could not be deployed into Pulp\x27s storage" : String) ≠
      "file could not be deployed into storage" := by
  constructor
  · rfl
  · decide

/-- C1 (amended): for a supported type, a handler failure of each class
yields the failure report with exactly that category message — the storage
message being the one with Pulp in it — never an escaping exception, and a
normal handler return yields the success report with one unit processed and
zero failed. -/
theorem claim_c1_report_conversion (typeId : String) (userKey userMeta : Option Dict)
    (w : World) (hs : handledTypes.contains typeId = true) :
    (∀ e saved links, runHandler typeId userKey userMeta w = (.error e, saved, links) →
      (upload typeId userKey userMeta w).1 =
        { success := false, added := 0, updated := 0, removed := 0, summary := "",
          detailsErrors := some [match e with
            | .modelInstantiationError => "metadata for the uploaded file was invalid"
            | .storeFileError => "file could not be deployed into Pulp\x27s storage"
            | .packageMetadataError => "metadata for the given package could not be extracted"
            | .unexpectedError => "unexpected error occurred importing uploaded file"] }) ∧
    (∀ saved links, runHandler typeId userKey userMeta w = (.ok (), saved, links) →
      (upload typeId userKey userMeta w).1 =
        { success := true, added := 1, updated := 0, removed := 0, summary := "",
          detailsErrors := none }) := by
  have hm : typeId ∈ handledTypes := by simpa using hs
  constructor
  · intro e saved links hr
    simp [upload, hm, hr, failReport]
    cases e <;> rfl
  · intro saved links hr
    simp [upload, hm, hr, successReport]

/-- Witness for C1 at a storage failure of a package upload. -/
theorem claim_c1_report_conversion_witness :
    (upload rpmTypeId (some []) none exWorldMoveFail).1 =
      { success := false, added := 0, updated := 0, removed := 0, summary := "",
        detailsErrors := some ["file could not be deployed into Pulp\x27s storage"] } :=
  (claim_c1_report_conversion rpmTypeId (some []) none exWorldMoveFail (by decide)).1
    .storeFileError [] [] rfl

/-- C5: when header extraction and model validation succeed but the storage
move fails, the upload returns the storage failure report with its single
message, and no save_unit effect happens — persistence comes only after a
successful move. -/
theorem claim_c5_storage_failure (typeId : String) (userKey userMeta : Option Dict)
    (w : World) (hdrs : RpmHeaders)
    (ht : typeId = rpmTypeId ∨ typeId = srpmTypeId)
    (hh : w.pkg.headerParse = some hdrs)
    (hv : modelInstantiationOk typeId
        (mergedKeyOf hdrs w.pkg.checksum w.pkg.basename userKey) = true)
    (hm : w.pkg.moveOk = false) :
    upload typeId userKey userMeta w =
      ({ success := false, added := 0, updated := 0, removed := 0, summary := "",
         detailsErrors := some ["file could not be deployed into Pulp\x27s storage"] },
        [], []) := by
  have hrun : runHandler typeId userKey userMeta w =
      ((handlePackage typeId userKey userMeta w.pkg).1,
        (handlePackage typeId userKey userMeta w.pkg).2, []) := by
    rcases ht with ht | ht <;> subst ht <;> rfl
  have hpkg : handlePackage typeId userKey userMeta w.pkg =
      (.error .storeFileError, []) := by
    simp [handlePackage, hh, hv, hm]
  have hmem : typeId ∈ handledTypes := by
    rcases ht with ht | ht <;> subst ht <;> decide
  simp [upload, hmem, hrun, hpkg, failReport, errorMessage]

/-- Witness for C5 at a concrete package upload with a failing move. -/
theorem claim_c5_storage_failure_witness :
    upload rpmTypeId (some []) none exWorldMoveFail =
      ({ success := false, added := 0, updated := 0, removed := 0, summary := "",
         detailsErrors := some ["file could not be deployed into Pulp\x27s storage"] },
        [], []) :=
  claim_c5_storage_failure rpmTypeId (some []) none exWorldMoveFail exHeaders
    (Or.inl rfl) rfl (by decide) rfl

/-- Every upload result is either the success report or a one-message
failure report. -/
theorem upload_report_shape (typeId : String) (userKey userMeta : Option Dict)
    (w : World) :
    (upload typeId userKey userMeta w).1 = successReport ∨
    ∃ m, (upload typeId userKey userMeta w).1 = failReport m := by
  by_cases hm : typeId ∈ handledTypes
  · rcases hr : runHandler typeId userKey userMeta w with ⟨r, saved, links⟩
    cases r with
    | ok a => left; simp [upload, hm, hr]
    | error e => right; exact ⟨errorMessage e, by simp [upload, hm, hr]⟩
  · right
    exact ⟨typeId ++ " is not a supported type for upload", by simp [upload, hm]⟩

/-- C10: every failing upload — unsupported type or any handler failure —
reports success false, all three numeric counts zero (the failed count
included), the empty summary, and a details errors list of exactly one
message. -/
theorem claim_c10_fail_report_shape (typeId : String) (userKey userMeta : Option Dict)
    (w : World) (h : (upload typeId userKey userMeta w).1.success = false) :
    (upload typeId userKey userMeta w).1.added = 0 ∧
    (upload typeId userKey userMeta w).1.updated = 0 ∧
    (upload typeId userKey userMeta w).1.removed = 0 ∧
    (upload typeId userKey userMeta w).1.summary = "" ∧
    ∃ m, (upload typeId userKey userMeta w).1.detailsErrors = some [m] := by
  rcases upload_report_shape typeId userKey userMeta w with hs | ⟨m, hm⟩
  · rw [hs] at h
    simp [successReport] at h
  · rw [hm]
    exact ⟨rfl, rfl, rfl, rfl, m, rfl⟩

/-- Witness for C10 at an unsupported-type upload. -/
theorem claim_c10_fail_report_shape_witness :
    (upload "widget" none none exWorldMoveFail).1.added = 0 ∧
    (upload "widget" none none exWorldMoveFail).1.updated = 0 ∧
    (upload "widget" none none exWorldMoveFail).1.removed = 0 ∧
    (upload "widget" none none exWorldMoveFail).1.summary = "" ∧
    ∃ m, (upload "widget" none none exWorldMoveFail).1.detailsErrors = some [m] :=
  claim_c10_fail_report_shape "widget" none none exWorldMoveFail rfl

/-- C6 counterexample: a successful package upload whose user metadata
supplies a provides list stores the snippet-derived provides list, not the
user-supplied one, so the stored metadata is not the claimed shallow
merge. -/
theorem claim_c6_counterexample :
    dLookup exUserMeta "provides" = some (.caps [exCap]) ∧
    (upload rpmTypeId (some []) (some exUserMeta) exWorldMoveOk).1.success = true ∧
    ((upload rpmTypeId (some []) (some exUserMeta) exWorldMoveOk).2.1.map
      (fun su => dLookup su.meta "provides")) = [some (.caps [])] ∧
    some (PyVal.caps []) ≠ some (PyVal.caps [exCap]) := by
  refine ⟨rfl, rfl, rfl, by decide⟩

/-- C6 (amended): the validated unit key and metadata of a package upload
are the shallow merge of the user mappings over the extracted mappings, with
user values winning field by field, and the saved unit carries exactly the
merged key; the saved metadata equals the merge on every field except
repodata, provides and requires, which the handler recomputes from the
package snippet after the merge and before saving. -/
theorem claim_c6_merge_override (typeId : String) (uk um : Dict) (w : World)
    (hdrs : RpmHeaders) (provides requires : List CapabilityEntry)
    (ht : typeId = rpmTypeId ∨ typeId = srpmTypeId)
    (hh : w.pkg.headerParse = some hdrs)
    (hv : modelInstantiationOk typeId
        (mergedKeyOf hdrs w.pkg.checksum w.pkg.basename (some uk)) = true)
    (hm : w.pkg.moveOk = true)
    (hsnip : updateProvidesRequires w.pkg.repodataPrimary w.pkg.repodataRoot =
        .ok (provides, requires)) :
    (upload typeId (some uk) (some um) w).2.1 =
      [{ typeId := typeId,
         key := mergedKeyOf hdrs w.pkg.checksum w.pkg.basename (some uk),
         meta := dUpdate (mergedMetaOf hdrs w.pkg.checksum w.pkg.basename (some um))
           [ ("repodata", .repodataVal w.pkg.repodataPrimary),
             ("provides", .caps provides),
             ("requires", .caps requires) ] }] ∧
    (∀ f, (dLookup uk f).isSome →
      dLookup (mergedKeyOf hdrs w.pkg.checksum w.pkg.basename (some uk)) f =
        dLookup uk f) ∧
    (∀ f, dLookup uk f = none →
      dLookup (mergedKeyOf hdrs w.pkg.checksum w.pkg.basename (some uk)) f =
        dLookup (generateRpmData hdrs w.pkg.checksum w.pkg.basename).1 f) ∧
    (∀ f, (dLookup um f).isSome →
      dLookup (mergedMetaOf hdrs w.pkg.checksum w.pkg.basename (some um)) f =
        dLookup um f) ∧
    (∀ f, dLookup um f = none →
      dLookup (mergedMetaOf hdrs w.pkg.checksum w.pkg.basename (some um)) f =
        dLookup (generateRpmData hdrs w.pkg.checksum w.pkg.basename).2 f) ∧
    (∀ f, f ≠ "repodata" → f ≠ "provides" → f ≠ "requires" →
      dLookup (dUpdate (mergedMetaOf hdrs w.pkg.checksum w.pkg.basename (some um))
          [ ("repodata", .repodataVal w.pkg.repodataPrimary),
            ("provides", .caps provides),
            ("requires", .caps requires) ]) f =
        dLookup (mergedMetaOf hdrs w.pkg.checksum w.pkg.basename (some um)) f) := by
  refine ⟨?_, ?_, ?_, ?_, ?_, ?_⟩
  · have hrun : runHandler typeId (some uk) (some um) w =
        ((handlePackage typeId (some uk) (some um) w.pkg).1,
          (handlePackage typeId (some uk) (some um) w.pkg).2, []) := by
      rcases ht with ht | ht <;> subst ht <;> rfl
    have hmem : typeId ∈ handledTypes := by
      rcases ht with ht | ht <;> subst ht <;> decide
    have hpkg : handlePackage typeId (some uk) (some um) w.pkg =
        (.ok (),
          [{ typeId := typeId,
             key := mergedKeyOf hdrs w.pkg.checksum w.pkg.basename (some uk),
             meta := dUpdate (mergedMetaOf hdrs w.pkg.checksum w.pkg.basename (some um))
               [ ("repodata", .repodataVal w.pkg.repodataPrimary),
                 ("provides", .caps provides),
                 ("requires", .caps requires) ] }]) := by
      simp [handlePackage, hh, hv, hm, hsnip]
    simp [upload, hmem, hrun, hpkg]
  · intro f hf
    exact dLookup_dUpdate_of_mem _ _ _ hf
  · intro f hf
    exact dLookup_dUpdate_of_not_mem _ _ _ hf
  · intro f hf
    exact dLookup_dUpdate_of_mem _ _ _ hf
  · intro f hf
    exact dLookup_dUpdate_of_not_mem _ _ _ hf
  · intro f h1 h2 h3
    apply dLookup_dUpdate_of_not_mem
    simp [dLookup, List.find?_eq_none]
    exact ⟨Ne.symm h1, Ne.symm h2, Ne.symm h3⟩

/-- Witness for C6 (amended) at a concrete successful package upload. -/
theorem claim_c6_merge_override_witness :
    (upload rpmTypeId (some []) (some exUserMeta) exWorldMoveOk).2.1 =
      [{ typeId := rpmTypeId,
         key := mergedKeyOf exHeaders "abc123" "pulp-test.rpm" (some []),
         meta := dUpdate (mergedMetaOf exHeaders "abc123" "pulp-test.rpm" (some exUserMeta))
           [ ("repodata", .repodataVal [60, 112, 233]),
             ("provides", .caps []),
             ("requires", .caps []) ] }] :=
  (claim_c6_merge_override rpmTypeId [] exUserMeta exWorldMoveOk exHeaders [] []
    (Or.inl rfl) rfl (by decide) rfl rfl).1

/-- C7: when the parsed snippet has its package and format elements but the
format element lacks the provides or the requires child, extraction returns
normally and the corresponding capability list is empty. -/
theorem claim_c7_missing_entries (text : List Nat) (root pe fe : XmlElement)
    (henc : (determineCodec text).isSome = true)
    (hp : xfind root "package" = some pe)
    (hf : xfind pe "format" = some fe) :
    (xfind fe "provides" = none →
      updateProvidesRequires text root = .ok ([], capList (xfind fe "requires"))) ∧
    (xfind fe "requires" = none →
      updateProvidesRequires text root = .ok (capList (xfind fe "provides"), [])) := by
  cases hc : determineCodec text with
  | none => rw [hc] at henc; simp at henc
  | some c =>
    constructor <;> intro hmiss <;>
      simp [updateProvidesRequires, hc, hp, hf, hmiss, capList]

/-- Witness for C7 at a snippet whose format element has no provides and no
requires child. -/
theorem claim_c7_missing_entries_witness :
    updateProvidesRequires [60, 112, 233] exRoot = .ok ([], []) :=
  (claim_c7_missing_entries [60, 112, 233] exRoot
    (.node "package" [] [.node "format" [] []]) (.node "format" [] [])
    (by decide) rfl rfl).1 rfl

/-- C8: for snippet text made of Unicode scalar values the encoding
determination never fails — the UTF-8 attempt itself succeeds, so the chosen
codec is UTF-8 and extraction never stops with an encoding error; text
encodable in ISO-8859-1 is in particular of this kind. -/
theorem claim_c8_encoding_never_fails (text : List Nat)
    (h : ∀ cp ∈ text, isUnicodeScalar cp = true) :
    determineCodec text = some Codec.utf8 ∧
    (∀ cp ∈ text, latin1Encodable cp = true → isUnicodeScalar cp = true) ∧
    (∀ root, updateProvidesRequires text root ≠ .error .unicodeEncodeError) := by
  have hall : text.all isUnicodeScalar = true := List.all_eq_true.mpr h
  have hd : determineCodec text = some .utf8 := by
    simp [determineCodec, pyEncode, hall]
  refine ⟨hd, ?_, ?_⟩
  · intro cp hcp _
    exact h cp hcp
  · intro root
    simp only [updateProvidesRequires, hd]
    cases hp : xfind root "package" with
    | none => simp [hp]
    | some pe =>
      cases hf : xfind pe "format" with
      | none => simp [hp, hf]
      | some fe => simp [hp, hf]

/-- Witness for C8 at text holding an ASCII letter, a Latin-1 letter and a
code point above the Latin-1 range. -/
theorem claim_c8_encoding_never_fails_witness :
    determineCodec [104, 233, 8364] = some Codec.utf8 :=
  (claim_c8_encoding_never_fails [104, 233, 8364] (by decide)).1

/-- C9: for a validated errata upload, with skip_erratum_link set no link is
made; with it unset a package unit receives a bidirectional link exactly
when it is in the repository under the RPM or the SRPM type and matches at
least one of the search predicates of the errata. -/
theorem claim_c9_errata_linking (userKey userMeta : Option Dict) (w : World)
    (k : Dict) (huk : userKey = some k)
    (hv : modelInstantiationOk errataTypeId k = true) :
    (w.err.skipLink = true →
      (upload errataTypeId userKey userMeta w).2.2 = []) ∧
    (w.err.skipLink = false →
      ∀ (u : StoredUnit) (b : Bool),
        ({ target := u, bidirectional := b } : Link) ∈
            (upload errataTypeId userKey userMeta w).2.2 ↔
          (b = true ∧ u ∈ w.err.db ∧
            (u.typeId = rpmTypeId ∨ u.typeId = srpmTypeId) ∧
            matchesAnyFilter w.err.searchDicts u = true)) := by
  subst huk
  have hrun : runHandler errataTypeId (some k) userMeta w =
      handleErratum errataTypeId (some k) userMeta w.err := rfl
  have hmem : errataTypeId ∈ handledTypes := by decide
  constructor
  · intro hskip
    simp [upload, hmem, hrun, handleErratum, hv, hskip]
  · intro hskip u b
    have hlinks : (upload errataTypeId (some k) userMeta w).2.2 =
        linkErrataToRpms w.err := by
      simp [upload, hmem, hrun, handleErratum, hv, hskip]
    rw [hlinks]
    simp only [linkErrataToRpms, getUnits, List.mem_map, List.mem_append,
      List.mem_filter, Link.mk.injEq, Bool.and_eq_true, beq_iff_eq]
    constructor
    · rintro ⟨x, hx, hxu, hxb⟩
      rcases hx with ⟨hxdb, hxt, hxm⟩ | ⟨hxdb, hxt, hxm⟩ <;>
        subst hxu <;>
        exact ⟨hxb.symm, hxdb, by simp [hxt], hxm⟩
    · rintro ⟨hb, hdb, ht, hm⟩
      subst hb
      rcases ht with ht | ht
      · exact ⟨u, Or.inl ⟨hdb, ht, hm⟩, rfl, rfl⟩
      · exact ⟨u, Or.inr ⟨hdb, ht, hm⟩, rfl, rfl⟩

/-- Witness for C9: the matching RPM of the repository is linked. -/
theorem claim_c9_errata_linking_witness :
    ({ target := exMatchingUnit, bidirectional := true } : Link) ∈
      (upload errataTypeId (some exErrataKey) none exErrWorld).2.2 :=
  ((claim_c9_errata_linking (some exErrataKey) none exErrWorld exErrataKey rfl
      (by decide)).2 rfl exMatchingUnit true).mpr
    ⟨rfl, by decide, Or.inl rfl, by decide⟩

end PulpRpm
